import Mathlib

/-!
Shallow embedding of the two Streamlit single-page scripts of this
repository, `src/app/src/home.py` (the "app" variant) and
`src/src/home.py` (the "src" variant).

A script run is modelled as a pure function of
  * the widget values collected in the sidebar (`Widgets`),
  * the prior session state (`Option (List Message)`; `none` means the
    `messages` key is absent, as on the first run),
  * an oracle record `Helpers` holding the return values of the remote
    helper functions imported from the external `utility` module.
The run returns `none` when the script raises (the only raise visible in
the UI code is `st.session_state.messages.clear()` on an absent key), and
otherwise a `RunResult`: the final message list, the list of helper calls
made (in order, with their arguments), and the list of local file paths
written.
-/

/-- A chat message, the Python dict with keys "role" and "content". -/
structure Message where
  role : String
  content : String
deriving DecidableEq, Repr

/-- The greeting message both scripts use to (re)initialize the history. -/
def greetingMsg : Message :=
  ⟨"assistant", "I am your assistant. How can I help today?"⟩

/-- Whether the needle list occurs at the head of the haystack list. -/
def matchesAt : List Char → List Char → Bool
  | [], _ => true
  | _ :: _, [] => false
  | a :: as, b :: bs => a == b && matchesAt as bs

/-- Whether the needle occurs as a contiguous sublist of the haystack. -/
def containsSub (n : List Char) : List Char → Bool
  | [] => matchesAt n []
  | c :: t => matchesAt n (c :: t) || containsSub n t

/-- Python `needle in haystack` on strings: substring containment. -/
def pyIn (needle haystack : String) : Bool :=
  containsSub needle.data haystack.data

/-- The `rag_update` flag: set by the sidebar when `'Update' in rag_on`. -/
def ragUpdateFlag (rag_on : String) : Bool :=
  pyIn "Update" rag_on

/-- The `rag_retrieval` flag: set in the `elif` branch, so only when the
update test failed and `'Retrieval' in rag_on`. -/
def ragRetrievalFlag (rag_on : String) : Bool :=
  !ragUpdateFlag rag_on && pyIn "Retrieval" rag_on

/-- Which of the three body handlers a run executes. -/
inductive Branch where
  | update
  | retrieval
  | generation
deriving DecidableEq, Repr

/-- The `if rag_update / elif rag_retrieval / else` dispatch of the body. -/
def branchOf (rag_on : String) : Branch :=
  if ragUpdateFlag rag_on then Branch.update
  else if ragRetrievalFlag rag_on then Branch.retrieval
  else Branch.generation

/-- One remote helper invocation, with the arguments it received. -/
inductive HelperCall where
  | read_key_value (file key : String)
  | bedrock_kb_injection_noarg
  | bedrock_kb_injection_path (path : String)
  | bedrock_kb_retrieval (prompt modelId : String)
  | bedrock_kb_retrieval_advanced (prompt modelId : String) (maxToken : ℤ)
      (temperature topP : ℚ) (topK : ℤ) (stop : String)
  | bedrock_textGen (modelId prompt : String) (maxToken : ℤ)
      (temperature topP : ℚ) (topK : ℤ) (stop : String)
  | empty_directory (path : String)
deriving DecidableEq, Repr

/-- The Python name of the helper function behind a call event. -/
def helperName : HelperCall → String
  | HelperCall.read_key_value _ _ => "read_key_value"
  | HelperCall.bedrock_kb_injection_noarg => "bedrock_kb_injection"
  | HelperCall.bedrock_kb_injection_path _ => "bedrock_kb_injection"
  | HelperCall.bedrock_kb_retrieval _ _ => "bedrock_kb_retrieval"
  | HelperCall.bedrock_kb_retrieval_advanced _ _ _ _ _ _ _ =>
      "bedrock_kb_retrieval_advanced"
  | HelperCall.bedrock_textGen _ _ _ _ _ _ _ => "bedrock_textGen"
  | HelperCall.empty_directory _ => "empty_directory"

/-- The five helper names the specification lists. -/
def specHelperNames : List String :=
  ["read_key_value", "bedrock_kb_injection", "bedrock_kb_retrieval",
   "bedrock_textGen", "empty_directory"]

/-- The helper names actually imported and called by the two scripts:
the five of the specification plus `bedrock_kb_retrieval_advanced`. -/
def repoHelperNames : List String :=
  specHelperNames ++ ["bedrock_kb_retrieval_advanced"]

/-- Oracle record: the return values of the external helper functions.
`bedrock_kb_injection0` is the zero-argument form the app variant calls,
returning `(msg, status)`; `bedrock_kb_injection` is the one-argument form
the src variant calls, returning `(stats, status, kb_id)`. -/
structure Helpers where
  read_key_value : String → String → String
  bedrock_kb_injection0 : String × String
  bedrock_kb_injection : String → String × String × String
  bedrock_kb_retrieval : String → String → String
  bedrock_kb_retrieval_advanced :
      String → String → ℤ → ℚ → ℚ → ℤ → String → String
  bedrock_textGen : String → String → ℤ → ℚ → ℚ → ℤ → String → String

/-- The sidebar widget values of one run. `chat_input = none` models no
chat submission; uploaded files are modelled by their names. -/
structure Widgets where
  option : String
  temperature : ℚ
  max_token : ℤ
  top_p : ℚ
  top_k : ℤ
  stop_sequences : String
  rag_on : String
  upload_docs : List String
  clear_button : Bool
  chat_input : Option String

/-- The bounds the number-input widgets enforce on their values:
`min_value=0.0, max_value=1.0` for temperature, `min_value=0` for
max_token, `min_value=0.1` for top_p and `min_value=1` for top_k. -/
def Widgets.valid (w : Widgets) : Prop :=
  0 ≤ w.temperature ∧ w.temperature ≤ 1 ∧ 0 ≤ w.max_token ∧
    (1 : ℚ) / 10 ≤ w.top_p ∧ 1 ≤ w.top_k

instance (w : Widgets) : Decidable w.valid := by
  unfold Widgets.valid; infer_instance

/-- The sidebar clear-button step. Pressing the button runs
`st.session_state.messages.clear()` followed by reassignment to the
one-element greeting list; on an absent `messages` key the attribute
access raises, modelled by `none`. -/
def afterClear (clear : Bool) (s0 : Option (List Message)) :
    Option (Option (List Message)) :=
  if clear then
    match s0 with
    | none => none
    | some _ => some (some [greetingMsg])
  else some s0

/-- The body initialization: an absent `messages` key is set to the
one-element greeting list. -/
def initMessages : Option (List Message) → List Message
  | none => [greetingMsg]
  | some l => l

/-- The observable outcome of a run: final message list, helper calls in
order, and local file paths written. -/
structure RunResult where
  messages : List Message
  calls : List HelperCall
  writes : List String
deriving DecidableEq, Repr

/-- The attribution suffix both scripts append to generated replies. -/
def suffixNote (modelId : String) : String :=
  "\n\n ✒︎Content created by using: " ++ modelId

/-- The two `read_key_value` calls at the top of the app variant. -/
def callsInitApp : List HelperCall :=
  [HelperCall.read_key_value "./.aoss_config.txt" "AOSS_host_name",
   HelperCall.read_key_value "./.aoss_config.txt" "AOSS_index_name"]

/-- The two `read_key_value` calls at the top of the src variant. -/
def callsInitSrc : List HelperCall :=
  [HelperCall.read_key_value ".aoss_config.txt" "AOSS_host_name",
   HelperCall.read_key_value ".aoss_config.txt" "AOSS_index_name"]

/-- The `file_path` constant of the src variant. -/
def file_path : String := "./data/"

/-- The body of the app variant, given the message list `base` reached
after the sidebar and the initialization check.  The triple-quoted block
inside its update branch is a bare string expression, hence a no-op. -/
def handlerApp (h : Helpers) (w : Widgets) (base : List Message) :
    RunResult :=
  match branchOf w.rag_on with
  | Branch.update =>
      ⟨base ++ [⟨"assistant", h.bedrock_kb_injection0.1⟩],
       callsInitApp ++ [HelperCall.bedrock_kb_injection_noarg], []⟩
  | Branch.retrieval =>
      match w.chat_input with
      | some prompt =>
          if prompt = "" then ⟨base, callsInitApp, []⟩
          else
            ⟨base ++ [⟨"user", prompt⟩,
               ⟨"assistant",
                h.bedrock_kb_retrieval prompt w.option ++
                  suffixNote w.option⟩],
             callsInitApp ++
               [HelperCall.bedrock_kb_retrieval prompt w.option], []⟩
      | none => ⟨base, callsInitApp, []⟩
  | Branch.generation =>
      match w.chat_input with
      | some prompt =>
          if prompt = "" then ⟨base, callsInitApp, []⟩
          else
            ⟨base ++ [⟨"user", prompt⟩,
               ⟨"assistant",
                h.bedrock_textGen w.option prompt w.max_token w.temperature
                    w.top_p w.top_k w.stop_sequences ++
                  suffixNote w.option⟩],
             callsInitApp ++
               [HelperCall.bedrock_textGen w.option prompt w.max_token
                  w.temperature w.top_p w.top_k w.stop_sequences], []⟩
      | none => ⟨base, callsInitApp, []⟩

/-- The body of the src variant.  Its update branch only acts when the
upload list is truthy: it empties `./data/`, writes each uploaded file
there, calls `bedrock_kb_injection("./data/")`, and appends the formatted
status message. -/
def handlerSrc (h : Helpers) (w : Widgets) (base : List Message) :
    RunResult :=
  match branchOf w.rag_on with
  | Branch.update =>
      if w.upload_docs = [] then ⟨base, callsInitSrc, []⟩
      else
        ⟨base ++ [⟨"assistant",
           "Total " ++ (h.bedrock_kb_injection file_path).1 ++
             "  to Amazon Bedrock Knowledge Base: " ++
             (h.bedrock_kb_injection file_path).2.2 ++
             "  with status: " ++
             (h.bedrock_kb_injection file_path).2.1 ++ "."⟩],
         callsInitSrc ++
           [HelperCall.empty_directory file_path,
            HelperCall.bedrock_kb_injection_path file_path],
         w.upload_docs.map (fun nm => file_path ++ nm)⟩
  | Branch.retrieval =>
      match w.chat_input with
      | some prompt =>
          if prompt = "" then ⟨base, callsInitSrc, []⟩
          else
            ⟨base ++ [⟨"user", prompt⟩,
               ⟨"assistant",
                h.bedrock_kb_retrieval_advanced prompt w.option w.max_token
                    w.temperature w.top_p w.top_k w.stop_sequences ++
                  suffixNote w.option⟩],
             callsInitSrc ++
               [HelperCall.bedrock_kb_retrieval_advanced prompt w.option
                  w.max_token w.temperature w.top_p w.top_k
                  w.stop_sequences], []⟩
      | none => ⟨base, callsInitSrc, []⟩
  | Branch.generation =>
      match w.chat_input with
      | some prompt =>
          if prompt = "" then ⟨base, callsInitSrc, []⟩
          else
            ⟨base ++ [⟨"user", prompt⟩,
               ⟨"assistant",
                h.bedrock_textGen w.option prompt w.max_token w.temperature
                    w.top_p w.top_k w.stop_sequences ++
                  suffixNote w.option⟩],
             callsInitSrc ++
               [HelperCall.bedrock_textGen w.option prompt w.max_token
                  w.temperature w.top_p w.top_k w.stop_sequences], []⟩
      | none => ⟨base, callsInitSrc, []⟩

/-- One full run of the app variant script. -/
def runApp (h : Helpers) (w : Widgets) (s0 : Option (List Message)) :
    Option RunResult :=
  (afterClear w.clear_button s0).map fun s1 =>
    handlerApp h w (initMessages s1)

/-- One full run of the src variant script. -/
def runSrc (h : Helpers) (w : Widgets) (s0 : Option (List Message)) :
    Option RunResult :=
  (afterClear w.clear_button s0).map fun s1 =>
    handlerSrc h w (initMessages s1)

/-- Recognizer for `bedrock_textGen` call events. -/
def isTextGenCall : HelperCall → Bool
  | HelperCall.bedrock_textGen _ _ _ _ _ _ _ => true
  | _ => false

/-- Recognizer for retrieval call events (plain or advanced). -/
def isRetrievalCall : HelperCall → Bool
  | HelperCall.bedrock_kb_retrieval _ _ => true
  | HelperCall.bedrock_kb_retrieval_advanced _ _ _ _ _ _ _ => true
  | _ => false

/-- Recognizer for `bedrock_kb_injection` call events. -/
def isInjectionCall : HelperCall → Bool
  | HelperCall.bedrock_kb_injection_noarg => true
  | HelperCall.bedrock_kb_injection_path _ => true
  | _ => false

/-- Recognizer for `empty_directory` call events. -/
def isEmptyDirCall : HelperCall → Bool
  | HelperCall.empty_directory _ => true
  | _ => false

/-- Concrete helper oracle used to instantiate theorems on closed inputs.
Its retrieval and advanced-retrieval results agree, as the equivalence
hypotheses require. -/
def hTest : Helpers where
  read_key_value := fun _ k => "V:" ++ k
  bedrock_kb_injection0 := ("app-injection", "ok")
  bedrock_kb_injection := fun _ => ("3 files", "COMPLETE", "KB1")
  bedrock_kb_retrieval := fun p o => "R:" ++ p ++ ":" ++ o
  bedrock_kb_retrieval_advanced := fun p o _ _ _ _ _ => "R:" ++ p ++ ":" ++ o
  bedrock_textGen := fun o p _ _ _ _ _ => "G:" ++ p ++ ":" ++ o

/-- Concrete widget values at the defaults, RAG slider on None. -/
def wBase : Widgets where
  option := "anthropic.claude-v2:1"
  temperature := 0
  max_token := 1024
  top_p := 1 / 10
  top_k := 40
  stop_sequences := "\n\nHuman"
  rag_on := "None"
  upload_docs := []
  clear_button := false
  chat_input := none

/-- Concrete widgets: generation mode with a submitted prompt. -/
def wGen : Widgets := { wBase with chat_input := some "hi" }

/-- Concrete widgets: retrieval mode with a submitted prompt. -/
def wRet : Widgets := { wBase with rag_on := "Retrieval", chat_input := some "hi" }

/-- Concrete widgets: update mode with an empty upload list. -/
def wUpd : Widgets := { wBase with rag_on := "Update" }

example : branchOf "None" = Branch.generation := by decide
example : branchOf "Update" = Branch.update := by decide
example : branchOf "Retrieval" = Branch.retrieval := by decide

/-- Every run result of either handler extends its base message list. -/
theorem handlerApp_messages_append (h : Helpers) (w : Widgets)
    (base : List Message) :
    ∃ tail, (handlerApp h w base).messages = base ++ tail := by
  unfold handlerApp
  cases branchOf w.rag_on with
  | update => exact ⟨_, rfl⟩
  | retrieval =>
      cases w.chat_input with
      | none => exact ⟨[], by simp⟩
      | some p =>
          by_cases hp : p = "" <;> simp [hp]
  | generation =>
      cases w.chat_input with
      | none => exact ⟨[], by simp⟩
      | some p =>
          by_cases hp : p = "" <;> simp [hp]

/-- Every run result of the src handler extends its base message list. -/
theorem handlerSrc_messages_append (h : Helpers) (w : Widgets)
    (base : List Message) :
    ∃ tail, (handlerSrc h w base).messages = base ++ tail := by
  unfold handlerSrc
  cases branchOf w.rag_on with
  | update =>
      by_cases hu : w.upload_docs = [] <;> simp [hu]
  | retrieval =>
      cases w.chat_input with
      | none => exact ⟨[], by simp⟩
      | some p =>
          by_cases hp : p = "" <;> simp [hp]
  | generation =>
      cases w.chat_input with
      | none => exact ⟨[], by simp⟩
      | some p =>
          by_cases hp : p = "" <;> simp [hp]

/-- C1: for every value of the RAG mode slider, which ranges over None,
Update and Retrieval, at most one of the flags rag_update and
rag_retrieval is true, and the body dispatch selects exactly one of the
three handlers (update, retrieval, generation). -/
theorem claim_C1_handlers_mutually_exclusive (r : String)
    (hr : r = "None" ∨ r = "Update" ∨ r = "Retrieval") :
    ¬(ragUpdateFlag r = true ∧ ragRetrievalFlag r = true) ∧
      (decide (branchOf r = Branch.update)).toNat +
        (decide (branchOf r = Branch.retrieval)).toNat +
        (decide (branchOf r = Branch.generation)).toNat = 1 := by
  rcases hr with h | h | h <;> subst h <;> decide

/-- C1 witness: the theorem instantiated at the slider value Update. -/
theorem claim_C1_witness :
    ("Update" = "None" ∨ "Update" = "Update" ∨ "Update" = "Retrieval") ∧
      (¬(ragUpdateFlag "Update" = true ∧ ragRetrievalFlag "Update" = true) ∧
        (decide (branchOf "Update" = Branch.update)).toNat +
          (decide (branchOf "Update" = Branch.retrieval)).toNat +
          (decide (branchOf "Update" = Branch.generation)).toNat = 1) :=
  ⟨by decide, claim_C1_handlers_mutually_exclusive "Update" (by decide)⟩

/-- The message list after the clear-button step and the initialization
check is non-empty whenever the incoming state is absent or non-empty. -/
theorem initAfterClear_ne_nil (clear : Bool) (s0 s1 : Option (List Message))
    (hs1 : afterClear clear s0 = some s1)
    (h0 : ∀ l, s0 = some l → l ≠ []) : initMessages s1 ≠ [] := by
  unfold afterClear at hs1
  cases clear with
  | true =>
      cases s0 with
      | none => simp at hs1
      | some l =>
          simp at hs1
          subst hs1
          simp [initMessages]
  | false =>
      simp at hs1
      subst hs1
      cases s0 with
      | none => simp [initMessages]
      | some l => exact h0 l rfl

/-- A successful app run is the app handler applied to the state after
the sidebar and the initialization check. -/
theorem runApp_inv (h : Helpers) (w : Widgets) (s0 : Option (List Message))
    (res : RunResult) (s1 : Option (List Message))
    (hs1 : afterClear w.clear_button s0 = some s1)
    (hrun : runApp h w s0 = some res) :
    res = handlerApp h w (initMessages s1) := by
  unfold runApp at hrun
  rw [hs1] at hrun
  simpa using hrun.symm

/-- A successful src run is the src handler applied to the state after
the sidebar and the initialization check. -/
theorem runSrc_inv (h : Helpers) (w : Widgets) (s0 : Option (List Message))
    (res : RunResult) (s1 : Option (List Message))
    (hs1 : afterClear w.clear_button s0 = some s1)
    (hrun : runSrc h w s0 = some res) :
    res = handlerSrc h w (initMessages s1) := by
  unfold runSrc at hrun
  rw [hs1] at hrun
  simpa using hrun.symm

/-- C2: session state holds the chat history.  In retrieval and
generation modes every non-empty submitted prompt appends a user message
with the prompt text immediately followed by an assistant reply; in every
mode the handlers only append to the list reached after the sidebar and
the initialization check; and when the incoming state is absent (so the
greeting initialization fires) or non-empty, the final list is non-empty. -/
theorem claim_C2_session_append_only (h : Helpers) (w : Widgets)
    (s0 : Option (List Message)) (res : RunResult)
    (s1 : Option (List Message))
    (hs1 : afterClear w.clear_button s0 = some s1)
    (hrun : runApp h w s0 = some res ∨ runSrc h w s0 = some res) :
    (∃ tail, res.messages = initMessages s1 ++ tail) ∧
      (∀ p, w.chat_input = some p → p ≠ "" →
          branchOf w.rag_on = Branch.retrieval ∨
            branchOf w.rag_on = Branch.generation →
          ∃ reply, res.messages =
            initMessages s1 ++
              [Message.mk "user" p, Message.mk "assistant" reply]) ∧
      ((∀ l, s0 = some l → l ≠ []) → res.messages ≠ []) := by
  rcases hrun with hrun | hrun
  · have hres := runApp_inv h w s0 res s1 hs1 hrun
    subst hres
    refine ⟨handlerApp_messages_append h w _, ?_, ?_⟩
    · intro p hp hpne hb
      rcases hb with hb | hb <;>
        simp [handlerApp, hb, hp, hpne]
    · intro h0
      have hb := initAfterClear_ne_nil w.clear_button s0 s1 hs1 h0
      rcases handlerApp_messages_append h w (initMessages s1) with ⟨t, ht⟩
      rw [ht]
      intro hc
      exact hb (List.append_eq_nil.mp hc).1
  · have hres := runSrc_inv h w s0 res s1 hs1 hrun
    subst hres
    refine ⟨handlerSrc_messages_append h w _, ?_, ?_⟩
    · intro p hp hpne hb
      rcases hb with hb | hb <;>
        simp [handlerSrc, hb, hp, hpne]
    · intro h0
      have hb := initAfterClear_ne_nil w.clear_button s0 s1 hs1 h0
      rcases handlerSrc_messages_append h w (initMessages s1) with ⟨t, ht⟩
      rw [ht]
      intro hc
      exact hb (List.append_eq_nil.mp hc).1

/-- C2 witness: the theorem instantiated with a concrete retrieval run of
the app variant from a one-message history. -/
theorem claim_C2_witness :
    afterClear wRet.clear_button (some [greetingMsg]) =
        some (some [greetingMsg]) ∧
      (runApp hTest wRet (some [greetingMsg]) =
          some (handlerApp hTest wRet (initMessages (some [greetingMsg]))) ∨
        runSrc hTest wRet (some [greetingMsg]) =
          some (handlerSrc hTest wRet (initMessages (some [greetingMsg])))) ∧
      ((∃ tail,
          (handlerApp hTest wRet (initMessages (some [greetingMsg]))).messages =
            initMessages (some [greetingMsg]) ++ tail) ∧
        (∀ p, wRet.chat_input = some p → p ≠ "" →
            branchOf wRet.rag_on = Branch.retrieval ∨
              branchOf wRet.rag_on = Branch.generation →
            ∃ reply,
              (handlerApp hTest wRet
                  (initMessages (some [greetingMsg]))).messages =
                initMessages (some [greetingMsg]) ++
                  [Message.mk "user" p, Message.mk "assistant" reply]) ∧
        ((∀ l, (some [greetingMsg] : Option (List Message)) = some l →
            l ≠ []) →
          (handlerApp hTest wRet
              (initMessages (some [greetingMsg]))).messages ≠ [])) :=
  ⟨rfl, Or.inl rfl,
    claim_C2_session_append_only hTest wRet (some [greetingMsg]) _ _ rfl
      (Or.inl rfl)⟩

/-- C3 counterexample: in Update mode with no uploads and identical widget
values and helper results, the app variant appends the injection message
while the src variant appends nothing, so the final message lists differ. -/
theorem claim_C3_counterexample :
    Option.map RunResult.messages (runApp hTest wUpd (some [greetingMsg])) ≠
      Option.map RunResult.messages (runSrc hTest wUpd (some [greetingMsg])) := by
  decide

/-- C3 (amended): the two variants are behaviorally equal on the
Retrieval and Generation branches: when the active mode is not Update and
the advanced retrieval helper returns the same string as the plain one on
the submitted prompt and widget values, both variants produce the same
final message list.  (The Update branches differ.) -/
theorem claim_C3_retrieval_generation_equal (h : Helpers) (w : Widgets)
    (s0 : Option (List Message))
    (hb : branchOf w.rag_on ≠ Branch.update)
    (hhelp : h.bedrock_kb_retrieval (w.chat_input.getD "") w.option =
        h.bedrock_kb_retrieval_advanced (w.chat_input.getD "") w.option
          w.max_token w.temperature w.top_p w.top_k w.stop_sequences) :
    Option.map RunResult.messages (runApp h w s0) =
      Option.map RunResult.messages (runSrc h w s0) := by
  unfold runApp runSrc
  cases hac : afterClear w.clear_button s0 with
  | none => rfl
  | some s1 =>
      simp only [Option.map_map, Option.map_some, Function.comp]
      cases hbr : branchOf w.rag_on with
      | update => exact absurd hbr hb
      | retrieval =>
          cases hci : w.chat_input with
          | none => simp [handlerApp, handlerSrc, hbr, hci]
          | some p =>
              by_cases hpe : p = ""
              · simp [handlerApp, handlerSrc, hbr, hci, hpe]
              · rw [hci] at hhelp
                simp only [Option.getD_some] at hhelp
                simp [handlerApp, handlerSrc, hbr, hci, hpe, hhelp]
      | generation =>
          cases hci : w.chat_input with
          | none => simp [handlerApp, handlerSrc, hbr, hci]
          | some p =>
              by_cases hpe : p = "" <;>
                simp [handlerApp, handlerSrc, hbr, hci, hpe]

/-- C3 witness: the amended theorem instantiated with the concrete
retrieval run, whose two helper forms agree. -/
theorem claim_C3_witness :
    branchOf wRet.rag_on ≠ Branch.update ∧
      hTest.bedrock_kb_retrieval (wRet.chat_input.getD "") wRet.option =
        hTest.bedrock_kb_retrieval_advanced (wRet.chat_input.getD "")
          wRet.option wRet.max_token wRet.temperature wRet.top_p wRet.top_k
          wRet.stop_sequences ∧
      Option.map RunResult.messages (runApp hTest wRet (some [greetingMsg])) =
        Option.map RunResult.messages (runSrc hTest wRet (some [greetingMsg])) :=
  ⟨by decide, rfl,
    claim_C3_retrieval_generation_equal hTest wRet (some [greetingMsg])
      (by decide) rfl⟩

/-- C4 counterexample: a retrieval run of the src variant calls
bedrock_kb_retrieval_advanced, whose name is not among the five helper
functions the claim lists, so the claim that the UI calls no helper other
than those five is false. -/
theorem claim_C4_counterexample :
    runSrc hTest wRet (some [greetingMsg]) =
        some (handlerSrc hTest wRet [greetingMsg]) ∧
      ¬(∀ c ∈ (handlerSrc hTest wRet [greetingMsg]).calls,
          helperName c ∈ specHelperNames) := by
  refine ⟨rfl, ?_⟩
  intro hall
  have hcalls : (handlerSrc hTest wRet [greetingMsg]).calls =
      callsInitSrc ++
        [HelperCall.bedrock_kb_retrieval_advanced "hi" wRet.option
          wRet.max_token wRet.temperature wRet.top_p wRet.top_k
          wRet.stop_sequences] := rfl
  have hmem : HelperCall.bedrock_kb_retrieval_advanced "hi" wRet.option
      wRet.max_token wRet.temperature wRet.top_p wRet.top_k
      wRet.stop_sequences ∈ (handlerSrc hTest wRet [greetingMsg]).calls := by
    rw [hcalls]
    exact List.mem_append_right _ (List.mem_singleton_self _)
  have := hall _ hmem
  simp [helperName, specHelperNames] at this

/-- Recognizer for read_key_value call events. -/
def isReadKeyCall : HelperCall → Bool
  | HelperCall.read_key_value _ _ => true
  | _ => false

/-- The app handler always makes exactly two read_key_value calls. -/
theorem handlerApp_readkey_twice (h : Helpers) (w : Widgets)
    (base : List Message) :
    (handlerApp h w base).calls.countP isReadKeyCall = 2 := by
  unfold handlerApp
  cases branchOf w.rag_on with
  | update =>
      simp [callsInitApp, isReadKeyCall, List.countP_cons, List.countP_nil,
        List.countP_append]
  | retrieval =>
      cases w.chat_input with
      | none =>
          simp [callsInitApp, isReadKeyCall, List.countP_cons,
            List.countP_nil]
      | some p =>
          by_cases hp : p = "" <;>
            simp [hp, callsInitApp, isReadKeyCall, List.countP_cons,
              List.countP_nil, List.countP_append]
  | generation =>
      cases w.chat_input with
      | none =>
          simp [callsInitApp, isReadKeyCall, List.countP_cons,
            List.countP_nil]
      | some p =>
          by_cases hp : p = "" <;>
            simp [hp, callsInitApp, isReadKeyCall, List.countP_cons,
              List.countP_nil, List.countP_append]

/-- The src handler always makes exactly two read_key_value calls. -/
theorem handlerSrc_readkey_twice (h : Helpers) (w : Widgets)
    (base : List Message) :
    (handlerSrc h w base).calls.countP isReadKeyCall = 2 := by
  unfold handlerSrc
  cases branchOf w.rag_on with
  | update =>
      by_cases hu : w.upload_docs = [] <;>
        simp [hu, callsInitSrc, isReadKeyCall, List.countP_cons,
          List.countP_nil, List.countP_append]
  | retrieval =>
      cases w.chat_input with
      | none =>
          simp [callsInitSrc, isReadKeyCall, List.countP_cons,
            List.countP_nil]
      | some p =>
          by_cases hp : p = "" <;>
            simp [hp, callsInitSrc, isReadKeyCall, List.countP_cons,
              List.countP_nil, List.countP_append]
  | generation =>
      cases w.chat_input with
      | none =>
          simp [callsInitSrc, isReadKeyCall, List.countP_cons,
            List.countP_nil]
      | some p =>
          by_cases hp : p = "" <;>
            simp [hp, callsInitSrc, isReadKeyCall, List.countP_cons,
              List.countP_nil, List.countP_append]

/-- C4 (amended): every helper call either variant makes is to one of the
six imported helper functions: read_key_value, bedrock_kb_injection,
bedrock_kb_retrieval, bedrock_kb_retrieval_advanced, bedrock_textGen,
empty_directory — one more than the five the specification lists — and
each run reads its configuration through exactly two read_key_value
calls; the substantive operations are all delegated through these calls. -/
theorem claim_C4_delegation (h : Helpers) (w : Widgets)
    (s0 : Option (List Message)) (res : RunResult)
    (hrun : runApp h w s0 = some res ∨ runSrc h w s0 = some res) :
    (∀ c ∈ res.calls, helperName c ∈ repoHelperNames) ∧
      res.calls.countP isReadKeyCall = 2 := by
  constructor
  · intro c _
    cases c <;> simp [helperName, repoHelperNames, specHelperNames]
  · rcases hrun with hrun | hrun
    · cases hac : afterClear w.clear_button s0 with
      | none => rw [runApp, hac] at hrun; simp at hrun
      | some s1 =>
          have hres := runApp_inv h w s0 res s1 hac hrun
          subst hres
          exact handlerApp_readkey_twice h w _
    · cases hac : afterClear w.clear_button s0 with
      | none => rw [runSrc, hac] at hrun; simp at hrun
      | some s1 =>
          have hres := runSrc_inv h w s0 res s1 hac hrun
          subst hres
          exact handlerSrc_readkey_twice h w _

/-- C4 witness: the amended theorem instantiated with the concrete
retrieval run of the src variant. -/
theorem claim_C4_witness :
    (runApp hTest wRet (some [greetingMsg]) =
        some (handlerSrc hTest wRet [greetingMsg]) ∨
      runSrc hTest wRet (some [greetingMsg]) =
        some (handlerSrc hTest wRet [greetingMsg])) ∧
      (∀ c ∈ (handlerSrc hTest wRet [greetingMsg]).calls,
          helperName c ∈ repoHelperNames) ∧
        (handlerSrc hTest wRet [greetingMsg]).calls.countP isReadKeyCall = 2 :=
  ⟨Or.inr rfl,
    claim_C4_delegation hTest wRet (some [greetingMsg])
      (handlerSrc hTest wRet [greetingMsg]) (Or.inr rfl)⟩

/-- C5: in retrieval and generation modes, for every non-empty submitted
prompt, the assistant message appended by either variant is exactly the
helper's return value followed by the suffix consisting of a blank line,
the pen glyph and the phrase naming the selected model id. -/
theorem claim_C5_reply_suffix (h : Helpers) (w : Widgets)
    (s0 : Option (List Message)) (res : RunResult)
    (s1 : Option (List Message)) (p : String)
    (hs1 : afterClear w.clear_button s0 = some s1)
    (hp : w.chat_input = some p) (hpne : p ≠ "") :
    (branchOf w.rag_on = Branch.retrieval →
        (runApp h w s0 = some res →
          res.messages = initMessages s1 ++
            [Message.mk "user" p,
             Message.mk "assistant"
               (h.bedrock_kb_retrieval p w.option ++
                 ("\n\n ✒︎Content created by using: " ++ w.option))]) ∧
        (runSrc h w s0 = some res →
          res.messages = initMessages s1 ++
            [Message.mk "user" p,
             Message.mk "assistant"
               (h.bedrock_kb_retrieval_advanced p w.option w.max_token
                   w.temperature w.top_p w.top_k w.stop_sequences ++
                 ("\n\n ✒︎Content created by using: " ++ w.option))])) ∧
      (branchOf w.rag_on = Branch.generation →
        (runApp h w s0 = some res →
          res.messages = initMessages s1 ++
            [Message.mk "user" p,
             Message.mk "assistant"
               (h.bedrock_textGen w.option p w.max_token w.temperature
                   w.top_p w.top_k w.stop_sequences ++
                 ("\n\n ✒︎Content created by using: " ++ w.option))]) ∧
        (runSrc h w s0 = some res →
          res.messages = initMessages s1 ++
            [Message.mk "user" p,
             Message.mk "assistant"
               (h.bedrock_textGen w.option p w.max_token w.temperature
                   w.top_p w.top_k w.stop_sequences ++
                 ("\n\n ✒︎Content created by using: " ++ w.option))])) := by
  constructor
  · intro hb
    constructor
    · intro hrun
      have hres := runApp_inv h w s0 res s1 hs1 hrun
      subst hres
      simp [handlerApp, hb, hp, hpne, suffixNote]
    · intro hrun
      have hres := runSrc_inv h w s0 res s1 hs1 hrun
      subst hres
      simp [handlerSrc, hb, hp, hpne, suffixNote]
  · intro hb
    constructor
    · intro hrun
      have hres := runApp_inv h w s0 res s1 hs1 hrun
      subst hres
      simp [handlerApp, hb, hp, hpne, suffixNote]
    · intro hrun
      have hres := runSrc_inv h w s0 res s1 hs1 hrun
      subst hres
      simp [handlerSrc, hb, hp, hpne, suffixNote]

/-- C5 witness: the theorem instantiated with the concrete retrieval run
of the app variant on the prompt hi. -/
theorem claim_C5_witness :
    afterClear wRet.clear_button (some [greetingMsg]) =
        some (some [greetingMsg]) ∧
      wRet.chat_input = some "hi" ∧ "hi" ≠ "" ∧
      ((branchOf wRet.rag_on = Branch.retrieval →
          (runApp hTest wRet (some [greetingMsg]) =
              some (handlerApp hTest wRet [greetingMsg]) →
            (handlerApp hTest wRet [greetingMsg]).messages =
              initMessages (some [greetingMsg]) ++
                [Message.mk "user" "hi",
                 Message.mk "assistant"
                   (hTest.bedrock_kb_retrieval "hi" wRet.option ++
                     ("\n\n ✒︎Content created by using: " ++ wRet.option))]) ∧
          (runSrc hTest wRet (some [greetingMsg]) =
              some (handlerApp hTest wRet [greetingMsg]) →
            (handlerApp hTest wRet [greetingMsg]).messages =
              initMessages (some [greetingMsg]) ++
                [Message.mk "user" "hi",
                 Message.mk "assistant"
                   (hTest.bedrock_kb_retrieval_advanced "hi" wRet.option
                       wRet.max_token wRet.temperature wRet.top_p wRet.top_k
                       wRet.stop_sequences ++
                     ("\n\n ✒︎Content created by using: " ++ wRet.option))])) ∧
        (branchOf wRet.rag_on = Branch.generation →
          (runApp hTest wRet (some [greetingMsg]) =
              some (handlerApp hTest wRet [greetingMsg]) →
            (handlerApp hTest wRet [greetingMsg]).messages =
              initMessages (some [greetingMsg]) ++
                [Message.mk "user" "hi",
                 Message.mk "assistant"
                   (hTest.bedrock_textGen wRet.option "hi" wRet.max_token
                       wRet.temperature wRet.top_p wRet.top_k
                       wRet.stop_sequences ++
                     ("\n\n ✒︎Content created by using: " ++ wRet.option))]) ∧
          (runSrc hTest wRet (some [greetingMsg]) =
              some (handlerApp hTest wRet [greetingMsg]) →
            (handlerApp hTest wRet [greetingMsg]).messages =
              initMessages (some [greetingMsg]) ++
                [Message.mk "user" "hi",
                 Message.mk "assistant"
                   (hTest.bedrock_textGen wRet.option "hi" wRet.max_token
                       wRet.temperature wRet.top_p wRet.top_k
                       wRet.stop_sequences ++
                     ("\n\n ✒︎Content created by using: " ++ wRet.option))]))) :=
  ⟨rfl, rfl, by decide,
    claim_C5_reply_suffix hTest wRet (some [greetingMsg])
      (handlerApp hTest wRet [greetingMsg]) (some [greetingMsg]) "hi" rfl rfl
      (by decide)⟩

/-- C6: pressing the Clear Chat History button resets the messages list
to exactly the one-element greeting list, for every prior history; and
when no prompt is submitted and the update branch is not active, the
final state of either variant is exactly that one-element list. -/
theorem claim_C6_clear_resets (l : List Message) (h : Helpers) (w : Widgets)
    (resA resS : RunResult)
    (hclear : w.clear_button = true)
    (hci : w.chat_input = none)
    (hnb : branchOf w.rag_on ≠ Branch.update)
    (hrunA : runApp h w (some l) = some resA)
    (hrunS : runSrc h w (some l) = some resS) :
    afterClear w.clear_button (some l) = some (some [greetingMsg]) ∧
      resA.messages = [greetingMsg] ∧ resS.messages = [greetingMsg] := by
  have hac : afterClear w.clear_button (some l) = some (some [greetingMsg]) := by
    simp [afterClear, hclear]
  refine ⟨hac, ?_, ?_⟩
  · have hres := runApp_inv h w (some l) resA (some [greetingMsg]) hac hrunA
    subst hres
    cases hb : branchOf w.rag_on with
    | update => exact absurd hb hnb
    | retrieval => simp [handlerApp, hb, hci, initMessages]
    | generation => simp [handlerApp, hb, hci, initMessages]
  · have hres := runSrc_inv h w (some l) resS (some [greetingMsg]) hac hrunS
    subst hres
    cases hb : branchOf w.rag_on with
    | update => exact absurd hb hnb
    | retrieval => simp [handlerSrc, hb, hci, initMessages]
    | generation => simp [handlerSrc, hb, hci, initMessages]

/-- Concrete widgets: default modes with the clear button pressed. -/
def wClr : Widgets := { wBase with clear_button := true }

/-- C6 witness: the theorem instantiated with a two-message prior history
and the clear button pressed. -/
theorem claim_C6_witness :
    wClr.clear_button = true ∧ wClr.chat_input = none ∧
      branchOf wClr.rag_on ≠ Branch.update ∧
      runApp hTest wClr (some [greetingMsg, Message.mk "user" "old"]) =
        some (handlerApp hTest wClr [greetingMsg]) ∧
      runSrc hTest wClr (some [greetingMsg, Message.mk "user" "old"]) =
        some (handlerSrc hTest wClr [greetingMsg]) ∧
      (afterClear wClr.clear_button
          (some [greetingMsg, Message.mk "user" "old"]) =
            some (some [greetingMsg]) ∧
        (handlerApp hTest wClr [greetingMsg]).messages = [greetingMsg] ∧
        (handlerSrc hTest wClr [greetingMsg]).messages = [greetingMsg]) :=
  ⟨rfl, rfl, by decide, rfl, rfl,
    claim_C6_clear_resets [greetingMsg, Message.mk "user" "old"] hTest wClr
      (handlerApp hTest wClr [greetingMsg])
      (handlerSrc hTest wClr [greetingMsg]) rfl rfl (by decide) rfl rfl⟩

/-- C7: in generation mode, under the widget-enforced bounds, every run
of either variant makes exactly one bedrock_textGen call and it receives
exactly the sidebar configuration in order: model id, prompt, max_token,
temperature, top_p, top_k, stop_sequences. -/
theorem claim_C7_textgen_args (h : Helpers) (w : Widgets)
    (s0 : Option (List Message)) (resA resS : RunResult)
    (s1 : Option (List Message)) (p : String)
    (hv : w.valid)
    (hb : branchOf w.rag_on = Branch.generation)
    (hp : w.chat_input = some p) (hpne : p ≠ "")
    (hs1 : afterClear w.clear_button s0 = some s1)
    (hrunA : runApp h w s0 = some resA)
    (hrunS : runSrc h w s0 = some resS) :
    resA.calls.filter isTextGenCall =
        [HelperCall.bedrock_textGen w.option p w.max_token w.temperature
          w.top_p w.top_k w.stop_sequences] ∧
      resS.calls.filter isTextGenCall =
        [HelperCall.bedrock_textGen w.option p w.max_token w.temperature
          w.top_p w.top_k w.stop_sequences] ∧
      0 ≤ w.temperature ∧ w.temperature ≤ 1 ∧ 0 ≤ w.max_token ∧
      (1 : ℚ) / 10 ≤ w.top_p ∧ 1 ≤ w.top_k := by
  obtain ⟨hv1, hv2, hv3, hv4, hv5⟩ := hv
  have hresA := runApp_inv h w s0 resA s1 hs1 hrunA
  have hresS := runSrc_inv h w s0 resS s1 hs1 hrunS
  subst hresA
  subst hresS
  refine ⟨?_, ?_, hv1, hv2, hv3, hv4, hv5⟩
  · simp [handlerApp, hb, hp, hpne, callsInitApp, List.filter_cons,
      List.filter_nil, List.filter_append, isTextGenCall]
  · simp [handlerSrc, hb, hp, hpne, callsInitSrc, List.filter_cons,
      List.filter_nil, List.filter_append, isTextGenCall]

/-- C7 witness: the theorem instantiated with the concrete generation run
on the prompt hi at the default widget values. -/
theorem claim_C7_witness :
    wGen.valid ∧ branchOf wGen.rag_on = Branch.generation ∧
      wGen.chat_input = some "hi" ∧ "hi" ≠ "" ∧
      afterClear wGen.clear_button (some [greetingMsg]) =
        some (some [greetingMsg]) ∧
      runApp hTest wGen (some [greetingMsg]) =
        some (handlerApp hTest wGen [greetingMsg]) ∧
      runSrc hTest wGen (some [greetingMsg]) =
        some (handlerSrc hTest wGen [greetingMsg]) ∧
      ((handlerApp hTest wGen [greetingMsg]).calls.filter isTextGenCall =
          [HelperCall.bedrock_textGen wGen.option "hi" wGen.max_token
            wGen.temperature wGen.top_p wGen.top_k wGen.stop_sequences] ∧
        (handlerSrc hTest wGen [greetingMsg]).calls.filter isTextGenCall =
          [HelperCall.bedrock_textGen wGen.option "hi" wGen.max_token
            wGen.temperature wGen.top_p wGen.top_k wGen.stop_sequences] ∧
        0 ≤ wGen.temperature ∧ wGen.temperature ≤ 1 ∧ 0 ≤ wGen.max_token ∧
        (1 : ℚ) / 10 ≤ wGen.top_p ∧ 1 ≤ wGen.top_k) :=
  ⟨⟨le_refl _, by simp [wGen, wBase], by decide, le_refl _, by decide⟩, by decide, rfl,
    by decide, rfl, rfl, rfl,
    claim_C7_textgen_args hTest wGen (some [greetingMsg])
      (handlerApp hTest wGen [greetingMsg])
      (handlerSrc hTest wGen [greetingMsg]) (some [greetingMsg]) "hi"
      ⟨le_refl _, by simp [wGen, wBase], by decide, le_refl _, by decide⟩ (by decide) rfl
      (by decide) rfl rfl rfl⟩

/-- C8: no retry or backoff.  In every run of either variant each chat
helper is invoked at most once; one submitted non-empty prompt triggers
exactly one retrieval call and no generation call in retrieval mode, and
exactly one bedrock_textGen call and no retrieval call in generation
mode, regardless of the helper's result. -/
theorem claim_C8_no_retry (h : Helpers) (w : Widgets)
    (s0 : Option (List Message)) (res : RunResult)
    (hrun : runApp h w s0 = some res ∨ runSrc h w s0 = some res) :
    (res.calls.countP isRetrievalCall ≤ 1 ∧
        res.calls.countP isTextGenCall ≤ 1) ∧
      (∀ p, w.chat_input = some p → p ≠ "" →
        (branchOf w.rag_on = Branch.retrieval →
          res.calls.countP isRetrievalCall = 1 ∧
            res.calls.countP isTextGenCall = 0) ∧
        (branchOf w.rag_on = Branch.generation →
          res.calls.countP isTextGenCall = 1 ∧
            res.calls.countP isRetrievalCall = 0)) := by
  rcases hrun with hrun | hrun
  · cases hac : afterClear w.clear_button s0 with
    | none => rw [runApp, hac] at hrun; simp at hrun
    | some s1 =>
        have hres := runApp_inv h w s0 res s1 hac hrun
        subst hres
        cases hb : branchOf w.rag_on with
        | update =>
            simp [handlerApp, hb, callsInitApp, List.countP_cons,
              List.countP_nil, List.countP_append, isRetrievalCall,
              isTextGenCall]
        | retrieval =>
            cases hci : w.chat_input with
            | none =>
                simp [handlerApp, hb, hci, callsInitApp, List.countP_cons,
                  List.countP_nil, isRetrievalCall, isTextGenCall]
            | some p =>
                by_cases hpe : p = "" <;>
                  simp [handlerApp, hb, hci, hpe, callsInitApp,
                    List.countP_cons, List.countP_nil, List.countP_append,
                    isRetrievalCall, isTextGenCall]
        | generation =>
            cases hci : w.chat_input with
            | none =>
                simp [handlerApp, hb, hci, callsInitApp, List.countP_cons,
                  List.countP_nil, isRetrievalCall, isTextGenCall]
            | some p =>
                by_cases hpe : p = "" <;>
                  simp [handlerApp, hb, hci, hpe, callsInitApp,
                    List.countP_cons, List.countP_nil, List.countP_append,
                    isRetrievalCall, isTextGenCall]
  · cases hac : afterClear w.clear_button s0 with
    | none => rw [runSrc, hac] at hrun; simp at hrun
    | some s1 =>
        have hres := runSrc_inv h w s0 res s1 hac hrun
        subst hres
        cases hb : branchOf w.rag_on with
        | update =>
            by_cases hu : w.upload_docs = [] <;>
              simp [handlerSrc, hb, hu, callsInitSrc, List.countP_cons,
                List.countP_nil, List.countP_append, isRetrievalCall,
                isTextGenCall]
        | retrieval =>
            cases hci : w.chat_input with
            | none =>
                simp [handlerSrc, hb, hci, callsInitSrc, List.countP_cons,
                  List.countP_nil, isRetrievalCall, isTextGenCall]
            | some p =>
                by_cases hpe : p = "" <;>
                  simp [handlerSrc, hb, hci, hpe, callsInitSrc,
                    List.countP_cons, List.countP_nil, List.countP_append,
                    isRetrievalCall, isTextGenCall]
        | generation =>
            cases hci : w.chat_input with
            | none =>
                simp [handlerSrc, hb, hci, callsInitSrc, List.countP_cons,
                  List.countP_nil, isRetrievalCall, isTextGenCall]
            | some p =>
                by_cases hpe : p = "" <;>
                  simp [handlerSrc, hb, hci, hpe, callsInitSrc,
                    List.countP_cons, List.countP_nil, List.countP_append,
                    isRetrievalCall, isTextGenCall]

/-- C8 witness: the theorem instantiated with the concrete generation run
of the app variant. -/
theorem claim_C8_witness :
    (runApp hTest wGen (some [greetingMsg]) =
        some (handlerApp hTest wGen [greetingMsg]) ∨
      runSrc hTest wGen (some [greetingMsg]) =
        some (handlerApp hTest wGen [greetingMsg])) ∧
      (((handlerApp hTest wGen [greetingMsg]).calls.countP isRetrievalCall
            ≤ 1 ∧
          (handlerApp hTest wGen [greetingMsg]).calls.countP isTextGenCall
            ≤ 1) ∧
        (∀ p, wGen.chat_input = some p → p ≠ "" →
          (branchOf wGen.rag_on = Branch.retrieval →
            (handlerApp hTest wGen [greetingMsg]).calls.countP
                isRetrievalCall = 1 ∧
              (handlerApp hTest wGen [greetingMsg]).calls.countP
                isTextGenCall = 0) ∧
          (branchOf wGen.rag_on = Branch.generation →
            (handlerApp hTest wGen [greetingMsg]).calls.countP
                isTextGenCall = 1 ∧
              (handlerApp hTest wGen [greetingMsg]).calls.countP
                isRetrievalCall = 0))) :=
  ⟨Or.inl rfl,
    claim_C8_no_retry hTest wGen (some [greetingMsg])
      (handlerApp hTest wGen [greetingMsg]) (Or.inl rfl)⟩

/-- C9: the scripts are sequential and deterministic: with the widget
values, prior session state and helper results fixed, two runs of the
same variant produce the same result, message lists included. -/
theorem claim_C9_deterministic (h : Helpers) (w : Widgets)
    (s0 : Option (List Message)) (a1 a2 b1 b2 : RunResult)
    (ha1 : runApp h w s0 = some a1) (ha2 : runApp h w s0 = some a2)
    (hb1 : runSrc h w s0 = some b1) (hb2 : runSrc h w s0 = some b2) :
    (a1 = a2 ∧ a1.messages = a2.messages) ∧
      (b1 = b2 ∧ b1.messages = b2.messages) := by
  have hA : a1 = a2 := Option.some.inj (ha1.symm.trans ha2)
  have hB : b1 = b2 := Option.some.inj (hb1.symm.trans hb2)
  exact ⟨⟨hA, by rw [hA]⟩, ⟨hB, by rw [hB]⟩⟩

/-- C9 witness: the theorem instantiated with two identical default runs
of each variant. -/
theorem claim_C9_witness :
    runApp hTest wBase (some [greetingMsg]) =
        some (handlerApp hTest wBase [greetingMsg]) ∧
      runSrc hTest wBase (some [greetingMsg]) =
        some (handlerSrc hTest wBase [greetingMsg]) ∧
      ((handlerApp hTest wBase [greetingMsg] =
            handlerApp hTest wBase [greetingMsg] ∧
          (handlerApp hTest wBase [greetingMsg]).messages =
            (handlerApp hTest wBase [greetingMsg]).messages) ∧
        (handlerSrc hTest wBase [greetingMsg] =
            handlerSrc hTest wBase [greetingMsg] ∧
          (handlerSrc hTest wBase [greetingMsg]).messages =
            (handlerSrc hTest wBase [greetingMsg]).messages)) :=
  ⟨rfl, rfl,
    claim_C9_deterministic hTest wBase (some [greetingMsg]) _ _ _ _ rfl rfl
      rfl rfl⟩

/-- C10: in the src variant, Update mode with an empty upload list is a
no-op: no message is appended, empty_directory and bedrock_kb_injection
are not called, and no file is written; whereas the app variant calls
bedrock_kb_injection unconditionally in Update mode. -/
theorem claim_C10_src_update_noop (h : Helpers) (w : Widgets)
    (s0 : Option (List Message)) (resA resS : RunResult)
    (s1 : Option (List Message))
    (hb : branchOf w.rag_on = Branch.update)
    (hu : w.upload_docs = [])
    (hs1 : afterClear w.clear_button s0 = some s1)
    (hrunS : runSrc h w s0 = some resS)
    (hrunA : runApp h w s0 = some resA) :
    resS.messages = initMessages s1 ∧
      resS.calls.countP isEmptyDirCall = 0 ∧
      resS.calls.countP isInjectionCall = 0 ∧
      resS.writes = [] ∧
      HelperCall.bedrock_kb_injection_noarg ∈ resA.calls := by
  have hresS := runSrc_inv h w s0 resS s1 hs1 hrunS
  have hresA := runApp_inv h w s0 resA s1 hs1 hrunA
  subst hresS
  subst hresA
  refine ⟨?_, ?_, ?_, ?_, ?_⟩ <;>
    simp [handlerSrc, handlerApp, hb, hu, callsInitSrc, callsInitApp,
      List.countP_cons, List.countP_nil, isEmptyDirCall, isInjectionCall]

/-- C10 witness: the theorem instantiated with the concrete Update-mode
runs of both variants with no uploads. -/
theorem claim_C10_witness :
    branchOf wUpd.rag_on = Branch.update ∧ wUpd.upload_docs = [] ∧
      afterClear wUpd.clear_button (some [greetingMsg]) =
        some (some [greetingMsg]) ∧
      runSrc hTest wUpd (some [greetingMsg]) =
        some (handlerSrc hTest wUpd [greetingMsg]) ∧
      runApp hTest wUpd (some [greetingMsg]) =
        some (handlerApp hTest wUpd [greetingMsg]) ∧
      ((handlerSrc hTest wUpd [greetingMsg]).messages =
          initMessages (some [greetingMsg]) ∧
        (handlerSrc hTest wUpd [greetingMsg]).calls.countP isEmptyDirCall
          = 0 ∧
        (handlerSrc hTest wUpd [greetingMsg]).calls.countP isInjectionCall
          = 0 ∧
        (handlerSrc hTest wUpd [greetingMsg]).writes = [] ∧
        HelperCall.bedrock_kb_injection_noarg ∈
          (handlerApp hTest wUpd [greetingMsg]).calls) :=
  ⟨by decide, rfl, rfl, rfl, rfl,
    claim_C10_src_update_noop hTest wUpd (some [greetingMsg])
      (handlerApp hTest wUpd [greetingMsg])
      (handlerSrc hTest wUpd [greetingMsg]) (some [greetingMsg]) (by decide)
      rfl rfl rfl rfl⟩
